import Mathlib

/-!
Shallow embedding of the scoring and rate-update logic of src/model.py
(Student Dropout Prevention and Improvement Tracking System), with
theorems checking the specification claims against it.

Real-valued Python floats are modelled as rationals. The unseeded random
draws are modelled by explicit parameters: a draw position t in the unit
interval stands for random.uniform(a, b) = a + t * (b - a), and a coin
value c stands for the result of random.random(). Network transport is
modelled as an Except value: ok carries the parsed message content of a
successful request, error carries the exception text of a failed one.
-/

namespace Model

/-- Boolean test that the list key occurs at the front of the second list,
character by character. Together with hasSubList this implements the
Python substring operator (key in s). -/
def leadMatch : List Char → List Char → Bool
  | [], _ => true
  | _ :: _, [] => false
  | k :: ks, c :: cs => k == c && leadMatch ks cs

/-- Boolean test that the list key occurs contiguously somewhere in the
second list: the Python substring operator on lists of characters. -/
def hasSubList (key : List Char) : List Char → Bool
  | [] => leadMatch key []
  | c :: cs => leadMatch key (c :: cs) || hasSubList key cs

/-- Python substring containment (key in s) on strings. -/
def containsSub (s key : String) : Bool := hasSubList key.data s.data

/-- Python str.lower, mapping the character lowercase conversion over the
characters of the string. -/
def strToLower (s : String) : String := String.mk (s.data.map Char.toLower)

/-- The improvements table of calculate_improvement (src/model.py lines
61 to 68): keyword, minimum improvement, maximum improvement, feedback,
in the insertion order of the Python dict. -/
def improvements : List (String × ℚ × ℚ × String) :=
  [("counseling", (5, 30, "Individual counseling sessions impact varied")),
   ("mentoring", (10, 35, "Mentoring program showed varying results")),
   ("academic support", (15, 40, "Academic support services impact observed")),
   ("financial aid", (20, 45, "Financial assistance impact noted")),
   ("engagement", (10, 35, "Engagement changes affected attendance")),
   ("monitoring", (5, 30, "Monitoring showed mixed results"))]

/-- calculate_improvement (src/model.py lines 58 to 78). The Python loop
over the dict takes the first key contained in the lowercased measure,
modelled by List.find? over the table in insertion order. The draw
random.uniform(min_imp, max_imp) is modelled as min_imp + t * (max_imp -
min_imp) and the negation test random.random() < 0.4 as c < 0.4. The
initial_rate argument is accepted and, as in the source, never used. -/
def calculate_improvement (measure_type : String) (initial_rate t c : ℚ) : ℚ × String :=
  let measure_lower := strToLower measure_type
  match improvements.find? (fun e => containsSub measure_lower e.1) with
  | some (_, min_imp, max_imp, feedback) =>
      let improvement := min_imp + t * (max_imp - min_imp)
      (if c < 0.4 then -improvement else improvement, feedback)
  | none => ((-25) + t * (25 - (-25)), "General impact observed")

/-- calculate_rate_change (src/model.py lines 80 to 104): returns
(new_rate, abs rate_change, change_direction). -/
def calculate_rate_change (initial_rate adjusted_improvement : ℚ) : ℚ × ℚ × String :=
  let rate_change := adjusted_improvement / 100 * initial_rate
  let new_rate := initial_rate - rate_change
  let new_rate := max 0 (min 100 new_rate)
  let change_direction := if new_rate < initial_rate then "-" else "+"
  (new_rate, |rate_change|, change_direction)

/-- C1: for every initial_rate and adjusted_improvement,
calculate_rate_change returns rate_change computed as
(adjusted_improvement / 100) * initial_rate, new_rate equal to
initial_rate minus that rate_change clamped to the interval from 0 to
100, and reports the magnitude as the absolute value of rate_change, so
the reported rate_change is always nonnegative. -/
theorem C1_rate_change_formula (initial_rate adjusted_improvement : ℚ) :
    calculate_rate_change initial_rate adjusted_improvement =
      (max 0 (min 100 (initial_rate - adjusted_improvement / 100 * initial_rate)),
       |adjusted_improvement / 100 * initial_rate|,
       if max 0 (min 100 (initial_rate - adjusted_improvement / 100 * initial_rate)) <
            initial_rate then "-" else "+") ∧
    0 ≤ (calculate_rate_change initial_rate adjusted_improvement).2.1 :=
  ⟨rfl, abs_nonneg _⟩

/-- C3: for every initial_rate in the interval from 0 to 100 and every
adjusted_improvement, the new_rate returned by calculate_rate_change
lies in the interval from 0 to 100. -/
theorem C3_new_rate_clamped (initial_rate adjusted_improvement : ℚ)
    (h0 : 0 ≤ initial_rate) (h1 : initial_rate ≤ 100) :
    0 ≤ (calculate_rate_change initial_rate adjusted_improvement).1 ∧
    (calculate_rate_change initial_rate adjusted_improvement).1 ≤ 100 := by
  simp only [calculate_rate_change]
  exact ⟨le_max_left 0 _, max_le (by norm_num) (min_le_left 100 _)⟩

/-- Witness for C3 at initial_rate 50, adjusted_improvement 10. -/
theorem C3_new_rate_clamped_witness :
    0 ≤ (calculate_rate_change 50 10).1 ∧ (calculate_rate_change 50 10).1 ≤ 100 :=
  C3_new_rate_clamped 50 10 (by norm_num) (by norm_num)

/-- C4: the change_direction returned by calculate_rate_change is the
minus sign exactly when new_rate < initial_rate, and the plus sign
otherwise, the case new_rate = initial_rate included. -/
theorem C4_direction_iff (initial_rate adjusted_improvement : ℚ) :
    ((calculate_rate_change initial_rate adjusted_improvement).2.2 = "-" ↔
      (calculate_rate_change initial_rate adjusted_improvement).1 < initial_rate) ∧
    ((calculate_rate_change initial_rate adjusted_improvement).2.2 = "+" ↔
      ¬ (calculate_rate_change initial_rate adjusted_improvement).1 < initial_rate) := by
  simp only [calculate_rate_change]
  split_ifs with h <;> simp [h]

/-- Conclusion pattern shared by the six category rows of claim C5: the
feedback string of the row is returned, the magnitude of the improvement
lies between the minimum and the maximum of the row, and the improvement
is negative exactly when the coin c is below 0.4. -/
def categoryResult (measure : String) (initial_rate t c min_imp max_imp : ℚ)
    (feedback : String) : Prop :=
  (calculate_improvement measure initial_rate t c).2 = feedback ∧
  min_imp ≤ |(calculate_improvement measure initial_rate t c).1| ∧
  |(calculate_improvement measure initial_rate t c).1| ≤ max_imp ∧
  ((calculate_improvement measure initial_rate t c).1 < 0 ↔ c < 0.4)

lemma draw_abs_bounds (mn mx t c : ℚ) (hmn : 0 < mn) (hle : mn ≤ mx)
    (ht0 : 0 ≤ t) (ht1 : t ≤ 1) :
    mn ≤ |if c < 0.4 then -(mn + t * (mx - mn)) else mn + t * (mx - mn)| ∧
    |if c < 0.4 then -(mn + t * (mx - mn)) else mn + t * (mx - mn)| ≤ mx ∧
    ((if c < 0.4 then -(mn + t * (mx - mn)) else mn + t * (mx - mn)) < 0 ↔ c < 0.4) := by
  have hdraw0 : 0 < mn + t * (mx - mn) := by nlinarith
  have habs : |if c < 0.4 then -(mn + t * (mx - mn)) else mn + t * (mx - mn)| =
      mn + t * (mx - mn) := by
    split_ifs with h
    · rw [abs_neg]; exact abs_of_pos hdraw0
    · exact abs_of_pos hdraw0
  refine ⟨?_, ?_, ?_⟩
  · rw [habs]; nlinarith
  · rw [habs]; nlinarith
  · split_ifs with h
    · simp only [h, iff_true]; linarith
    · simp only [h, iff_false, not_lt]; linarith

/-- C5: calculate_improvement lowercases the measure and tests the six
keywords counseling, mentoring, academic support, financial aid,
engagement, monitoring in table order for substring containment; the
first keyword contained wins, the drawn base value has magnitude in that
category's range and is negated exactly when the coin is below 0.4, and
when no keyword matches the value lies in the interval from -25 to 25
with feedback General impact observed. -/
theorem C5_category_lookup (measure : String) (initial_rate t c : ℚ)
    (ht0 : 0 ≤ t) (ht1 : t ≤ 1) :
    (containsSub (strToLower measure) "counseling" = true →
      categoryResult measure initial_rate t c 5 30
        "Individual counseling sessions impact varied") ∧
    (containsSub (strToLower measure) "counseling" = false →
     containsSub (strToLower measure) "mentoring" = true →
      categoryResult measure initial_rate t c 10 35
        "Mentoring program showed varying results") ∧
    (containsSub (strToLower measure) "counseling" = false →
     containsSub (strToLower measure) "mentoring" = false →
     containsSub (strToLower measure) "academic support" = true →
      categoryResult measure initial_rate t c 15 40
        "Academic support services impact observed") ∧
    (containsSub (strToLower measure) "counseling" = false →
     containsSub (strToLower measure) "mentoring" = false →
     containsSub (strToLower measure) "academic support" = false →
     containsSub (strToLower measure) "financial aid" = true →
      categoryResult measure initial_rate t c 20 45
        "Financial assistance impact noted") ∧
    (containsSub (strToLower measure) "counseling" = false →
     containsSub (strToLower measure) "mentoring" = false →
     containsSub (strToLower measure) "academic support" = false →
     containsSub (strToLower measure) "financial aid" = false →
     containsSub (strToLower measure) "engagement" = true →
      categoryResult measure initial_rate t c 10 35
        "Engagement changes affected attendance") ∧
    (containsSub (strToLower measure) "counseling" = false →
     containsSub (strToLower measure) "mentoring" = false →
     containsSub (strToLower measure) "academic support" = false →
     containsSub (strToLower measure) "financial aid" = false →
     containsSub (strToLower measure) "engagement" = false →
     containsSub (strToLower measure) "monitoring" = true →
      categoryResult measure initial_rate t c 5 30
        "Monitoring showed mixed results") ∧
    (containsSub (strToLower measure) "counseling" = false →
     containsSub (strToLower measure) "mentoring" = false →
     containsSub (strToLower measure) "academic support" = false →
     containsSub (strToLower measure) "financial aid" = false →
     containsSub (strToLower measure) "engagement" = false →
     containsSub (strToLower measure) "monitoring" = false →
      (calculate_improvement measure initial_rate t c).2 = "General impact observed" ∧
      -25 ≤ (calculate_improvement measure initial_rate t c).1 ∧
      (calculate_improvement measure initial_rate t c).1 ≤ 25) := by
  refine ⟨?_, ?_, ?_, ?_, ?_, ?_, ?_⟩
  · intro h1
    have hfind : improvements.find? (fun e => containsSub (strToLower measure) e.1) =
        some ("counseling", 5, 30, "Individual counseling sessions impact varied") := by
      simp only [improvements]
      exact List.find?_cons_of_pos _ (by simpa using h1)
    have h := draw_abs_bounds 5 30 t c (by norm_num) (by norm_num) ht0 ht1
    unfold categoryResult
    simp only [calculate_improvement, hfind]
    exact ⟨trivial, h.1, h.2.1, h.2.2⟩
  · intro h1 h2
    have hfind : improvements.find? (fun e => containsSub (strToLower measure) e.1) =
        some ("mentoring", 10, 35, "Mentoring program showed varying results") := by
      simp only [improvements]
      rw [List.find?_cons_of_neg _ (by simp [h1])]
      exact List.find?_cons_of_pos _ (by simpa using h2)
    have h := draw_abs_bounds 10 35 t c (by norm_num) (by norm_num) ht0 ht1
    unfold categoryResult
    simp only [calculate_improvement, hfind]
    exact ⟨trivial, h.1, h.2.1, h.2.2⟩
  · intro h1 h2 h3
    have hfind : improvements.find? (fun e => containsSub (strToLower measure) e.1) =
        some ("academic support", 15, 40, "Academic support services impact observed") := by
      simp only [improvements]
      rw [List.find?_cons_of_neg _ (by simp [h1]), List.find?_cons_of_neg _ (by simp [h2])]
      exact List.find?_cons_of_pos _ (by simpa using h3)
    have h := draw_abs_bounds 15 40 t c (by norm_num) (by norm_num) ht0 ht1
    unfold categoryResult
    simp only [calculate_improvement, hfind]
    exact ⟨trivial, h.1, h.2.1, h.2.2⟩
  · intro h1 h2 h3 h4
    have hfind : improvements.find? (fun e => containsSub (strToLower measure) e.1) =
        some ("financial aid", 20, 45, "Financial assistance impact noted") := by
      simp only [improvements]
      rw [List.find?_cons_of_neg _ (by simp [h1]), List.find?_cons_of_neg _ (by simp [h2]),
        List.find?_cons_of_neg _ (by simp [h3])]
      exact List.find?_cons_of_pos _ (by simpa using h4)
    have h := draw_abs_bounds 20 45 t c (by norm_num) (by norm_num) ht0 ht1
    unfold categoryResult
    simp only [calculate_improvement, hfind]
    exact ⟨trivial, h.1, h.2.1, h.2.2⟩
  · intro h1 h2 h3 h4 h5
    have hfind : improvements.find? (fun e => containsSub (strToLower measure) e.1) =
        some ("engagement", 10, 35, "Engagement changes affected attendance") := by
      simp only [improvements]
      rw [List.find?_cons_of_neg _ (by simp [h1]), List.find?_cons_of_neg _ (by simp [h2]),
        List.find?_cons_of_neg _ (by simp [h3]), List.find?_cons_of_neg _ (by simp [h4])]
      exact List.find?_cons_of_pos _ (by simpa using h5)
    have h := draw_abs_bounds 10 35 t c (by norm_num) (by norm_num) ht0 ht1
    unfold categoryResult
    simp only [calculate_improvement, hfind]
    exact ⟨trivial, h.1, h.2.1, h.2.2⟩
  · intro h1 h2 h3 h4 h5 h6
    have hfind : improvements.find? (fun e => containsSub (strToLower measure) e.1) =
        some ("monitoring", 5, 30, "Monitoring showed mixed results") := by
      simp only [improvements]
      rw [List.find?_cons_of_neg _ (by simp [h1]), List.find?_cons_of_neg _ (by simp [h2]),
        List.find?_cons_of_neg _ (by simp [h3]), List.find?_cons_of_neg _ (by simp [h4]),
        List.find?_cons_of_neg _ (by simp [h5])]
      exact List.find?_cons_of_pos _ (by simpa using h6)
    have h := draw_abs_bounds 5 30 t c (by norm_num) (by norm_num) ht0 ht1
    unfold categoryResult
    simp only [calculate_improvement, hfind]
    exact ⟨trivial, h.1, h.2.1, h.2.2⟩
  · intro h1 h2 h3 h4 h5 h6
    have hfind : improvements.find? (fun e => containsSub (strToLower measure) e.1) = none := by
      simp only [improvements]
      rw [List.find?_cons_of_neg _ (by simp [h1]), List.find?_cons_of_neg _ (by simp [h2]),
        List.find?_cons_of_neg _ (by simp [h3]), List.find?_cons_of_neg _ (by simp [h4]),
        List.find?_cons_of_neg _ (by simp [h5]), List.find?_cons_of_neg _ (by simp [h6])]
      rfl
    simp only [calculate_improvement, hfind]
    refine ⟨trivial, by nlinarith, by nlinarith⟩

/-- Witness for C5 at a measure containing both the mentoring and the
academic support keywords: the earlier-listed mentoring row wins. -/
theorem C5_category_lookup_witness :
    categoryResult "[Mentoring] peer mentoring with academic support" 50 (1/2) (1/2) 10 35
      "Mentoring program showed varying results" := by
  have h := C5_category_lookup "[Mentoring] peer mentoring with academic support" 50 (1/2) (1/2)
    (by norm_num) (by norm_num)
  exact h.2.1 (by decide) (by decide)

/-- C10: the result of calculate_improvement does not depend on its
initial_rate argument: with the random draws fixed, two calls with the
same measure and any two initial rates agree. -/
theorem C10_initial_rate_noninterference (measure : String) (t c r₁ r₂ : ℚ) :
    calculate_improvement measure r₁ t c = calculate_improvement measure r₂ t c := rfl

/-- The fixed-shape survey response of Tab 2 (src/model.py lines 225 to
276): radio answers are the strings True or False, sliders are integers
from 1 to 10. Field order follows the form. -/
structure SurveyResponse where
  attendance_improved : String
  attendance_consistency : ℤ
  academic_performance_improved : String
  grasp_academic_concepts : ℤ
  completing_assignments : String
  classroom_engagement : String
  attentiveness_in_class : ℤ
  asking_questions : String
  behavior_improved : String
  interaction_with_peers : ℤ
  emotional_stability : String
  parental_support : String
  parental_involvement : ℤ
  active_participation : String
  enthusiasm_in_activities : ℤ
  extracurricular_participation : String
  extracurricular_performance : ℤ
  effective_time_management : String
  overall_effort : ℤ
  cultural_barriers : String
  family_support_cultural_barriers : ℤ
  dropout_risk_reduction : String
  overall_progress : ℤ

/-- The feedback_scores dict built by the Analyze Improvement handler
(src/model.py lines 281 to 324), as an association list in insertion
order. -/
def feedback_scores (r : SurveyResponse) : List (String × ℚ) :=
  [("attendance_consistency", ((r.attendance_consistency : ℚ) - 5) * 4),
   ("attendance", if r.attendance_improved = "True" then 20 else -40),
   ("academic_performance", if r.academic_performance_improved = "True" then 20 else -40),
   ("grasp_academic_concepts", ((r.grasp_academic_concepts : ℚ) - 5) * 4),
   ("completing_assignments", if r.completing_assignments = "True" then 20 else -40),
   ("classroom_engagement", if r.classroom_engagement = "True" then 20 else -40),
   ("attentiveness_in_class", ((r.attentiveness_in_class : ℚ) - 5) * 4),
   ("asking_questions", if r.asking_questions = "True" then 20 else -40),
   ("behavior_improved", if r.behavior_improved = "True" then 20 else -40),
   ("interaction_with_peers", ((r.interaction_with_peers : ℚ) - 5) * 4),
   ("emotional_stability", if r.emotional_stability = "True" then 20 else -40),
   ("parental_support", if r.parental_support = "True" then 20 else -40),
   ("parental_involvement", ((r.parental_involvement : ℚ) - 5) * 4),
   ("active_participation", if r.active_participation = "True" then 20 else -40),
   ("enthusiasm_in_activities", ((r.enthusiasm_in_activities : ℚ) - 5) * 4),
   ("extracurricular_participation",
     if r.extracurricular_participation = "True" then 20 else -40),
   ("extracurricular_performance", ((r.extracurricular_performance : ℚ) - 5) * 4),
   ("effective_time_management", if r.effective_time_management = "True" then 20 else -40),
   ("overall_effort", ((r.overall_effort : ℚ) - 5) * 4),
   ("cultural_barriers", if r.cultural_barriers = "True" then -40 else 20),
   ("family_support_cultural_barriers",
     ((r.family_support_cultural_barriers : ℚ) - 5) * 4),
   ("dropout_risk_reduction", if r.dropout_risk_reduction = "True" then 20 else -40),
   ("overall_progress", ((r.overall_progress : ℚ) - 5) * 4)]

/-- The weights dict (src/model.py lines 327 to 341), in insertion
order. -/
def weights : List (String × ℚ) :=
  [("attendance", 0.15),
   ("attendance_consistency", 0.15),
   ("academic_performance", 0.20),
   ("grasp_academic_concepts", 0.15),
   ("completing_assignments", 0.15),
   ("classroom_engagement", 0.15),
   ("attentiveness_in_class", 0.15),
   ("asking_questions", 0.15),
   ("behavior_improved", 0.10),
   ("interaction_with_peers", 0.10),
   ("emotional_stability", 0.10),
   ("parental_support", 0.15),
   ("parental_involvement", 0.15)]

/-- Python weights.get(key, 0.10) (src/model.py line 344). -/
def weightsGet (key : String) : ℚ := (weights.lookup key).getD 0.10

/-- total_feedback_score (src/model.py lines 343 to 346): the raw
weighted sum over the feedback_scores entries. -/
def total_feedback_score (r : SurveyResponse) : ℚ :=
  ((feedback_scores r).map (fun p => weightsGet p.1 * p.2)).sum

/-- adjusted_improvement (src/model.py line 350). -/
def adjusted_improvement (improvement_percentage : ℚ) (r : SurveyResponse) : ℚ :=
  improvement_percentage + total_feedback_score r / 1.5

/-- One boolean survey field of claim C6: the stored score for the key
is tv when the answer is the string True and fv when it is the string
False. -/
def boolMapsTo (r : SurveyResponse) (key answer : String) (tv fv : ℚ) : Prop :=
  (answer = "True" → (feedback_scores r).lookup key = some tv) ∧
  (answer = "False" → (feedback_scores r).lookup key = some fv)

/-- One scale survey field of claim C6: the stored score for the key is
(v - 5) * 4, which lies between -16 and 20 when v is between 1 and
10. -/
def scaleMapsTo (r : SurveyResponse) (key : String) (v : ℤ) : Prop :=
  (feedback_scores r).lookup key = some (((v : ℚ) - 5) * 4) ∧
  (1 ≤ v → v ≤ 10 → -16 ≤ ((v : ℚ) - 5) * 4 ∧ ((v : ℚ) - 5) * 4 ≤ 20)

lemma boolMapsTo_of_eq (r : SurveyResponse) (key answer : String) (tv fv : ℚ)
    (h : (feedback_scores r).lookup key = some (if answer = "True" then tv else fv)) :
    boolMapsTo r key answer tv fv := by
  constructor
  · intro ha; rw [h, ha, if_pos rfl]
  · intro ha; rw [h, ha, if_neg (by decide)]

lemma scale_bounds (v : ℤ) (h1 : 1 ≤ v) (h2 : v ≤ 10) :
    -16 ≤ ((v : ℚ) - 5) * 4 ∧ ((v : ℚ) - 5) * 4 ≤ 20 := by
  have h1q : (1 : ℚ) ≤ (v : ℚ) := by exact_mod_cast h1
  have h2q : (v : ℚ) ≤ 10 := by exact_mod_cast h2
  constructor <;> linarith

lemma scaleMapsTo_of_eq (r : SurveyResponse) (key : String) (v : ℤ)
    (h : (feedback_scores r).lookup key = some (((v : ℚ) - 5) * 4)) :
    scaleMapsTo r key v :=
  ⟨h, fun h1 h2 => scale_bounds v h1 h2⟩

/-- C6: each boolean survey field scores 20 on the answer True and -40
on the answer False, the barrier-present field cultural_barriers is
inverted, and each scale field with value v scores (v - 5) * 4, lying
between -16 and 20 when v is between 1 and 10. Conjuncts follow the
insertion order of the feedback_scores dict. -/
theorem C6_per_field (r : SurveyResponse) :
    scaleMapsTo r "attendance_consistency" r.attendance_consistency ∧
    boolMapsTo r "attendance" r.attendance_improved 20 (-40) ∧
    boolMapsTo r "academic_performance" r.academic_performance_improved 20 (-40) ∧
    scaleMapsTo r "grasp_academic_concepts" r.grasp_academic_concepts ∧
    boolMapsTo r "completing_assignments" r.completing_assignments 20 (-40) ∧
    boolMapsTo r "classroom_engagement" r.classroom_engagement 20 (-40) ∧
    scaleMapsTo r "attentiveness_in_class" r.attentiveness_in_class ∧
    boolMapsTo r "asking_questions" r.asking_questions 20 (-40) ∧
    boolMapsTo r "behavior_improved" r.behavior_improved 20 (-40) ∧
    scaleMapsTo r "interaction_with_peers" r.interaction_with_peers ∧
    boolMapsTo r "emotional_stability" r.emotional_stability 20 (-40) ∧
    boolMapsTo r "parental_support" r.parental_support 20 (-40) ∧
    scaleMapsTo r "parental_involvement" r.parental_involvement ∧
    boolMapsTo r "active_participation" r.active_participation 20 (-40) ∧
    scaleMapsTo r "enthusiasm_in_activities" r.enthusiasm_in_activities ∧
    boolMapsTo r "extracurricular_participation" r.extracurricular_participation 20 (-40) ∧
    scaleMapsTo r "extracurricular_performance" r.extracurricular_performance ∧
    boolMapsTo r "effective_time_management" r.effective_time_management 20 (-40) ∧
    scaleMapsTo r "overall_effort" r.overall_effort ∧
    boolMapsTo r "cultural_barriers" r.cultural_barriers (-40) 20 ∧
    scaleMapsTo r "family_support_cultural_barriers" r.family_support_cultural_barriers ∧
    boolMapsTo r "dropout_risk_reduction" r.dropout_risk_reduction 20 (-40) ∧
    scaleMapsTo r "overall_progress" r.overall_progress :=
  ⟨scaleMapsTo_of_eq r _ _ rfl,
   boolMapsTo_of_eq r _ _ _ _ rfl,
   boolMapsTo_of_eq r _ _ _ _ rfl,
   scaleMapsTo_of_eq r _ _ rfl,
   boolMapsTo_of_eq r _ _ _ _ rfl,
   boolMapsTo_of_eq r _ _ _ _ rfl,
   scaleMapsTo_of_eq r _ _ rfl,
   boolMapsTo_of_eq r _ _ _ _ rfl,
   boolMapsTo_of_eq r _ _ _ _ rfl,
   scaleMapsTo_of_eq r _ _ rfl,
   boolMapsTo_of_eq r _ _ _ _ rfl,
   boolMapsTo_of_eq r _ _ _ _ rfl,
   scaleMapsTo_of_eq r _ _ rfl,
   boolMapsTo_of_eq r _ _ _ _ rfl,
   scaleMapsTo_of_eq r _ _ rfl,
   boolMapsTo_of_eq r _ _ _ _ rfl,
   scaleMapsTo_of_eq r _ _ rfl,
   boolMapsTo_of_eq r _ _ _ _ rfl,
   scaleMapsTo_of_eq r _ _ rfl,
   boolMapsTo_of_eq r _ _ _ _ rfl,
   scaleMapsTo_of_eq r _ _ rfl,
   boolMapsTo_of_eq r _ _ _ _ rfl,
   scaleMapsTo_of_eq r _ _ rfl⟩

/-- A survey response with every radio answer True and every slider at
10. -/
def surveyAllTrue : SurveyResponse :=
  ⟨"True", 10, "True", 10, "True", "True", 10, "True", "True", 10, "True", "True", 10,
   "True", 10, "True", 10, "True", 10, "True", 10, "True", 10⟩

/-- Witness for C6 at the all-True, all-10 survey: the attendance field
scores 20, the inverted cultural_barriers field scores -40, and the
attendance_consistency scale score lies between -16 and 20. -/
theorem C6_per_field_witness :
    (feedback_scores surveyAllTrue).lookup "attendance" = some 20 ∧
    (feedback_scores surveyAllTrue).lookup "cultural_barriers" = some (-40) ∧
    -16 ≤ ((surveyAllTrue.attendance_consistency : ℚ) - 5) * 4 ∧
    ((surveyAllTrue.attendance_consistency : ℚ) - 5) * 4 ≤ 20 := by
  obtain ⟨a1, a2, a3, a4, a5, a6, a7, a8, a9, a10, a11, a12, a13, a14, a15, a16, a17, a18,
    a19, a20, a21, a22, a23⟩ := C6_per_field surveyAllTrue
  exact ⟨a2.1 rfl, a20.1 rfl, (a1.2 (by decide) (by decide)).1, (a1.2 (by decide) (by decide)).2⟩

/-- C7: the weight table lists exactly 13 fields, every unlisted field
falls back to the default weight 0.10, the total feedback score is the
raw unnormalized sum of weight times field score over all fields, and
the adjusted improvement is the base draw plus the total divided by
1.5. -/
theorem C7_weighted_sum (r : SurveyResponse) (improvement_percentage : ℚ) :
    weights.length = 13 ∧
    (∀ key, weights.lookup key = none → weightsGet key = 0.10) ∧
    (∀ key w, weights.lookup key = some w → weightsGet key = w) ∧
    total_feedback_score r =
      ((feedback_scores r).map (fun p => weightsGet p.1 * p.2)).sum ∧
    adjusted_improvement improvement_percentage r =
      improvement_percentage + total_feedback_score r / 1.5 := by
  refine ⟨rfl, ?_, ?_, rfl, rfl⟩
  · intro key h; simp [weightsGet, h]
  · intro key w h; simp [weightsGet, h]

/-- Witness for C7: the unlisted overall_progress field gets the default
weight 0.10, the listed academic_performance field gets 0.20. -/
theorem C7_weighted_sum_witness :
    weightsGet "overall_progress" = 0.10 ∧ weightsGet "academic_performance" = 0.20 := by
  have h := C7_weighted_sum surveyAllTrue 0
  exact ⟨h.2.1 "overall_progress" rfl, h.2.2.1 "academic_performance" 0.20 rfl⟩

/-- get_groq_response (src/model.py lines 17 to 56). The try block posts
the request, raises on a bad status, and extracts the message content of
the JSON body; its outcome is modelled by the transport argument: ok
carries the extracted content, error carries the text of the raised
exception. The except clause turns any failure into the string Error:
followed by that text, so the function is total and never raises. -/
def get_groq_response (prompt model_type : String)
    (transport : Except String String) : String :=
  match transport with
  | Except.ok content => content
  | Except.error e => "Error: " ++ e

/-- Boolean test that the string s begins with the string front. -/
def strBeginsWith (s front : String) : Bool := leadMatch front.data s.data

/-- One entry of st.session_state.implemented_measures (src/model.py
lines 197 to 201): the reported rate and the response split on newlines.
The timestamp is not modelled. -/
structure MeasureRecord where
  rate : ℚ
  measures : List String

/-- Rendering of the Tab 1 prompt f-string (src/model.py lines 183 to
191). -/
def tab1_prompt (initial_rate : ℚ) (factors : String) : String :=
  "The dropout rate is " ++ toString initial_rate ++ "%. " ++
  "The contributing factors are: " ++ factors ++ ". " ++
  "Provide 5 specific, actionable preventive measures. " ++
  "Format each measure as a numbered list with the measure type in brackets. " ++
  "Example: 1. [Counseling] Implement weekly individual counseling sessions " ++
  "2. [Academic Support] Provide after-school tutoring"

/-- The Get Preventive Measures handler (src/model.py lines 181 to 201):
whatever string comes back from get_groq_response is split on newlines
and appended to the session history, with no branch on failure. -/
def tab1_get_measures (initial_rate : ℚ) (factors : String)
    (transport : Except String String) : MeasureRecord :=
  let measures := get_groq_response (tab1_prompt initial_rate factors) "model1" transport
  { rate := initial_rate, measures := measures.splitOn "\n" }

lemma leadMatch_append (key rest : List Char) : leadMatch key (key ++ rest) = true := by
  induction key with
  | nil => rfl
  | cons k ks ih => simp [leadMatch, ih]

/-- C8: every transport or API failure inside get_groq_response is
caught and turned into a string beginning with Error: followed by the
failure description; the function is total, so nothing is raised to the
caller, and the Tab 1 caller stores the error string split on newlines
exactly as it would a valid measure list. -/
theorem C8_error_as_string (prompt model_type failure factors : String)
    (initial_rate : ℚ) :
    get_groq_response prompt model_type (Except.error failure) = "Error: " ++ failure ∧
    strBeginsWith (get_groq_response prompt model_type (Except.error failure))
      "Error: " = true ∧
    tab1_get_measures initial_rate factors (Except.error failure) =
      { rate := initial_rate, measures := ("Error: " ++ failure).splitOn "\n" } := by
  refine ⟨rfl, ?_, rfl⟩
  show leadMatch "Error: ".data ("Error: " ++ failure).data = true
  rw [String.data_append]
  exact leadMatch_append _ _

/-- One entry of st.session_state.improvement_history (src/model.py
lines 391 to 399). The timestamp is not modelled. -/
structure ImprovementRecord where
  measure : String
  initial_rate : ℚ
  final_rate : ℚ
  rate_change : ℚ
  feedback : String
  feedback_scores : List (String × ℚ)

/-- Rendering of the report prompt f-string of
generate_improvement_report (src/model.py lines 131 to 160). -/
def report_prompt (measure : String) (initial_rate improvement_percentage : ℚ)
    (feedback : String) : String :=
  "Analyze the following dropout rate changes: MEASURE DETAILS: Implementation: " ++
  measure ++ " Initial Rate: " ++ toString initial_rate ++ "% Rate Change: " ++
  toString improvement_percentage ++ "% Key Observation: " ++ feedback ++
  " Please provide a structured analysis following these points: " ++
  "1. Rate Change Summary 2. Measure Effectiveness 3. Specific Observations " ++
  "4. Recommendations 5. Future Outlook"

/-- generate_improvement_report (src/model.py lines 130 to 161). -/
def generate_improvement_report (measure : String)
    (initial_rate improvement_percentage : ℚ) (feedback : String)
    (transport : Except String String) : String :=
  get_groq_response (report_prompt measure initial_rate improvement_percentage feedback)
    "model2" transport

/-- The Analyze Improvement handler (src/model.py lines 278 to 399):
computes the feedback scores, the total, the randomized improvement, the
adjusted improvement and the rate change, asks for the narrative report,
and returns the history record that is appended together with the
displayed report text. -/
def analyze_improvement (selected_measure : String) (rate : ℚ) (r : SurveyResponse)
    (t c : ℚ) (report_transport : Except String String) : ImprovementRecord × String :=
  let scores := feedback_scores r
  let imp := calculate_improvement selected_measure rate t c
  let adjusted := adjusted_improvement imp.1 r
  let rc := calculate_rate_change rate adjusted
  let report := generate_improvement_report selected_measure rate rc.2.1 imp.2
    report_transport
  ({ measure := selected_measure, initial_rate := rate, final_rate := rc.1,
     rate_change := rc.2.1, feedback := imp.2, feedback_scores := scores }, report)

/-- C9: the feedback field stored in the appended history record is the
category feedback string returned by calculate_improvement, and the
record does not depend on the narrative report transport at all: the
narrative is display-only. -/
theorem C9_feedback_not_narrative (selected_measure : String) (rate t c : ℚ)
    (r : SurveyResponse) (rt rt₁ rt₂ : Except String String) :
    (analyze_improvement selected_measure rate r t c rt).1.feedback =
      (calculate_improvement selected_measure rate t c).2 ∧
    (analyze_improvement selected_measure rate r t c rt₁).1 =
      (analyze_improvement selected_measure rate r t c rt₂).1 :=
  ⟨rfl, rfl⟩

/-- A survey response with every radio answer at its negative choice
(cultural_barriers True, all other radios False) and every slider at
1. -/
def surveyAllNegative : SurveyResponse :=
  ⟨"False", 1, "False", 1, "False", "False", 1, "False", "False", 1, "False", "False", 1,
   "False", 1, "False", 1, "False", 1, "True", 1, "False", 1⟩

set_option maxHeartbeats 2000000 in
/-- Counterexample to C2: at initial rate 100, measure Financial Aid
support, draw position 1, coin 0 and the all-negative survey, the
adjusted improvement is -101.8, the unclamped new rate 201.8 is clamped
to 100, the record stores rate_change 101.8, but the absolute difference
between initial and final rate is 0. -/
theorem C2_counterexample :
    ¬ ((analyze_improvement "Financial Aid support" 100 surveyAllNegative 1 0
          (Except.ok "narrative")).1.rate_change =
        |(analyze_improvement "Financial Aid support" 100 surveyAllNegative 1 0
            (Except.ok "narrative")).1.initial_rate -
          (analyze_improvement "Financial Aid support" 100 surveyAllNegative 1 0
            (Except.ok "narrative")).1.final_rate|) := by
  have hfind : improvements.find?
      (fun e => containsSub (strToLower "Financial Aid support") e.1) =
      some ("financial aid", 20, 45, "Financial assistance impact noted") := by
    simp only [improvements]
    rw [List.find?_cons_of_neg _ (by decide), List.find?_cons_of_neg _ (by decide),
      List.find?_cons_of_neg _ (by decide)]
    exact List.find?_cons_of_pos _ (by decide)
  have hci : calculate_improvement "Financial Aid support" 100 1 0 =
      (-45, "Financial assistance impact noted") := by
    simp only [calculate_improvement, hfind]
    norm_num
  have htotal : total_feedback_score surveyAllNegative = -426/5 := by
    simp [total_feedback_score, feedback_scores, surveyAllNegative,
      weightsGet, weights, List.lookup]
    norm_num
  have hrc : (analyze_improvement "Financial Aid support" 100 surveyAllNegative 1 0
      (Except.ok "narrative")).1.rate_change = 509/5 := by
    simp only [analyze_improvement, calculate_rate_change, adjusted_improvement, hci, htotal]
    rw [abs_of_neg] <;> norm_num
  have hfi : (analyze_improvement "Financial Aid support" 100 surveyAllNegative 1 0
      (Except.ok "narrative")).1.final_rate = 100 := by
    simp only [analyze_improvement, calculate_rate_change, adjusted_improvement, hci, htotal]
    rw [min_eq_left (by norm_num), max_eq_right (by norm_num)]
  have hin : (analyze_improvement "Financial Aid support" 100 surveyAllNegative 1 0
      (Except.ok "narrative")).1.initial_rate = 100 := rfl
  rw [hrc, hfi, hin]
  norm_num

/-- C2 amended: the stored rate_change equals the absolute difference
between the initial and the final rate of the record whenever the
unclamped new rate already lies between 0 and 100, so that the clamp
does not move it; when the clamp binds, the stored value is the
magnitude of the raw rate change instead. -/
theorem C2_amended_rate_change_abs_diff (selected_measure : String) (rate t c : ℚ)
    (r : SurveyResponse) (rt : Except String String)
    (h0 : 0 ≤ rate -
      adjusted_improvement (calculate_improvement selected_measure rate t c).1 r / 100 * rate)
    (h1 : rate -
      adjusted_improvement (calculate_improvement selected_measure rate t c).1 r / 100 * rate
        ≤ 100) :
    (analyze_improvement selected_measure rate r t c rt).1.rate_change =
      |(analyze_improvement selected_measure rate r t c rt).1.initial_rate -
        (analyze_improvement selected_measure rate r t c rt).1.final_rate| := by
  simp only [analyze_improvement, calculate_rate_change]
  rw [min_eq_right h1, max_eq_right h0, sub_sub_cancel]

set_option maxHeartbeats 2000000 in
/-- Witness for the amended C2 at measure Other help, rate 50, draw
position one half and the all-True survey: no clamping occurs and the
stored rate_change is the absolute rate difference. -/
theorem C2_amended_rate_change_abs_diff_witness :
    (analyze_improvement "Other help" 50 surveyAllTrue (1/2) (1/2)
        (Except.ok "narrative")).1.rate_change =
      |(analyze_improvement "Other help" 50 surveyAllTrue (1/2) (1/2)
          (Except.ok "narrative")).1.initial_rate -
        (analyze_improvement "Other help" 50 surveyAllTrue (1/2) (1/2)
          (Except.ok "narrative")).1.final_rate| := by
  have hfind : improvements.find?
      (fun e => containsSub (strToLower "Other help") e.1) = none := by decide
  have hci : calculate_improvement "Other help" 50 (1/2) (1/2) =
      (0, "General impact observed") := by
    simp only [calculate_improvement, hfind]
    norm_num
  have htotal : total_feedback_score surveyAllTrue = 51 := by
    simp [total_feedback_score, feedback_scores, surveyAllTrue,
      weightsGet, weights, List.lookup]
    norm_num
  exact C2_amended_rate_change_abs_diff "Other help" 50 (1/2) (1/2) surveyAllTrue
    (Except.ok "narrative")
    (by rw [hci]; norm_num [adjusted_improvement, htotal])
    (by rw [hci]; norm_num [adjusted_improvement, htotal])

end Model
